import Mathlib

/-!
Shallow embedding of the wgpu spinning-square renderer (`src/lib.rs`).

The program keeps one `State` object holding the surface configuration,
the stored window size, the rotation angle and the uniform buffer, and
drives it from a winit event loop.  Floating-point scalars (`f32`) are
modelled as exact reals; GPU side effects (surface reconfiguration,
render-pass recording, command submission, presentation) are modelled as
observable fields of the state: a log of `surface.configure` calls and
counters of recorded passes / submits / presents.  Surface-image
acquisition is an environment input to `render`.
-/

/-- `winit::dpi::PhysicalSize<u32>`: the window size in physical pixels. -/
structure PhysicalSize where
  width : Nat
  height : Nat
deriving DecidableEq

/-- The mutable part of `wgpu::SurfaceConfiguration`.  The remaining fields
(usage, format, present mode, alpha mode, frame latency, view formats) are
chosen once in `State::new` and never written again, so they are kept
abstract as a single immutable tag `fixed`. -/
structure SurfaceConfiguration where
  width : Nat
  height : Nat
  fixed : Nat
deriving DecidableEq

/-- `wgpu::SurfaceError`: the four error variants the frame loop matches on. -/
inductive SurfaceError where
  | Lost
  | Outdated
  | OutOfMemory
  | Timeout
deriving DecidableEq

/-- `glam::Vec4` with exact-real components. -/
structure Vec4 where
  x : ℝ
  y : ℝ
  z : ℝ
  w : ℝ

/-- `glam::Vec4::Z`. -/
noncomputable def Vec4.Z : Vec4 := ⟨0, 0, 1, 0⟩

/-- `glam::Vec4::W`. -/
noncomputable def Vec4.W : Vec4 := ⟨0, 0, 0, 1⟩

/-- `glam::Mat4`: four column vectors. -/
structure Mat4 where
  x_axis : Vec4
  y_axis : Vec4
  z_axis : Vec4
  w_axis : Vec4

/-- `glam::Mat4::IDENTITY`. -/
noncomputable def Mat4.IDENTITY : Mat4 :=
  { x_axis := ⟨1, 0, 0, 0⟩
    y_axis := ⟨0, 1, 0, 0⟩
    z_axis := ⟨0, 0, 1, 0⟩
    w_axis := ⟨0, 0, 0, 1⟩ }

/-- `glam::Mat4::from_rotation_z`: columns
`(cos a, sin a, 0, 0)`, `(-sin a, cos a, 0, 0)`, `Vec4::Z`, `Vec4::W`. -/
noncomputable def Mat4.from_rotation_z (angle : ℝ) : Mat4 :=
  let sina := Real.sin angle
  let cosa := Real.cos angle
  { x_axis := ⟨cosa, sina, 0, 0⟩
    y_axis := ⟨-sina, cosa, 0, 0⟩
    z_axis := Vec4.Z
    w_axis := Vec4.W }

/-- `glam::Mat4::to_cols_array`: the 16 components in column-major order. -/
noncomputable def Mat4.to_cols_array (m : Mat4) : List ℝ :=
  [m.x_axis.x, m.x_axis.y, m.x_axis.z, m.x_axis.w,
   m.y_axis.x, m.y_axis.y, m.y_axis.z, m.y_axis.w,
   m.z_axis.x, m.z_axis.y, m.z_axis.z, m.z_axis.w,
   m.w_axis.x, m.w_axis.y, m.w_axis.z, m.w_axis.w]

/-- `wgpu::Queue::write_buffer`: overwrite `data.length` scalar slots of
`buf` starting at `offset`, leaving the rest of the buffer intact. -/
def write_buffer (buf : List ℝ) (offset : Nat) (data : List ℝ) : List ℝ :=
  buf.take offset ++ data ++ buf.drop (offset + data.length)

/-- The `State` struct of `lib.rs`.  GPU handles (`surface`, `device`,
`queue`, `window`, `render_pipeline`, `bind_group`) carry no observable
data; the observable effects performed through them are recorded in
`surface_configured` (log of `surface.configure` calls, newest first) and
the three counters. -/
structure State where
  config : SurfaceConfiguration
  size : PhysicalSize
  rotation_angle : ℝ
  uniform_buffer : List ℝ
  surface_configured : List SurfaceConfiguration
  render_passes : Nat
  submits : Nat
  presents : Nat

/-- `State::new` (the part visible in this model): the surface
configuration takes its width and height from the initial window size, the
uniform buffer is initialised with the identity matrix, the rotation angle
starts at `0.0`, and `surface.configure(&device, &config)` is called once. -/
noncomputable def State.new (inner_size : PhysicalSize) (fixed_caps : Nat) : State :=
  let config : SurfaceConfiguration :=
    { width := inner_size.width, height := inner_size.height, fixed := fixed_caps }
  { config := config
    size := inner_size
    rotation_angle := 0
    uniform_buffer := Mat4.IDENTITY.to_cols_array
    surface_configured := [config]
    render_passes := 0
    submits := 0
    presents := 0 }

/-- `State::resize`: if both dimensions are strictly positive, store the
new size, write it into the surface configuration and reconfigure the
surface; otherwise do nothing. -/
def State.resize (s : State) (new_size : PhysicalSize) : State :=
  if new_size.width > 0 ∧ new_size.height > 0 then
    let config :=
      { s.config with width := new_size.width, height := new_size.height }
    { s with
      size := new_size
      config := config
      surface_configured := config :: s.surface_configured }
  else
    s

/-- `State::update`: add `0.001` to the rotation angle, then write the
column-major array of `Mat4::from_rotation_z(rotation_angle)` into the
uniform buffer at offset `0`. -/
noncomputable def State.update (s : State) : State :=
  let rotation_angle := s.rotation_angle + 0.001
  let transform := Mat4.from_rotation_z rotation_angle
  { s with
    rotation_angle := rotation_angle
    uniform_buffer := write_buffer s.uniform_buffer 0 transform.to_cols_array }

/-- `State::render`.  `acq` is the result of
`surface.get_current_texture()`: `none` means success.  On failure the `?`
operator returns the error at once, so no render pass is recorded, nothing
is submitted and nothing is presented; on success one render pass is
recorded, one command buffer is submitted and the image is presented. -/
def State.render (s : State) (acq : Option SurfaceError) :
    State × Option SurfaceError :=
  match acq with
  | some e => (s, some e)
  | none =>
      ({ s with
          render_passes := s.render_passes + 1
          submits := s.submits + 1
          presents := s.presents + 1 }, none)

/-- The event-loop control flow: `Running` until `control_flow.exit()`. -/
inductive Mode where
  | Running
  | Exiting
deriving DecidableEq

/-- The window events the `run` event loop distinguishes.  A redraw
request carries the acquisition outcome the subsequent `render` call will
observe. -/
inductive WinEvent where
  | CloseRequested
  | EscapePressed
  | Resized (sz : PhysicalSize)
  | RedrawRequested (acq : Option SurfaceError)
  | Other

/-- One iteration of the `event_loop.run` closure in `run` (`lib.rs`
lines 336-374): close / Escape exit; a resize event calls `State::resize`;
a redraw calls `update` then `render` and classifies the render result:
success and `Timeout` continue, `Lost` / `Outdated` call
`resize(state.size)` and continue, `OutOfMemory` exits. -/
noncomputable def loopStep (m : Mode) (s : State) (ev : WinEvent) : Mode × State :=
  match m with
  | Mode.Exiting => (Mode.Exiting, s)
  | Mode.Running =>
    match ev with
    | WinEvent.CloseRequested => (Mode.Exiting, s)
    | WinEvent.EscapePressed => (Mode.Exiting, s)
    | WinEvent.Resized sz => (Mode.Running, s.resize sz)
    | WinEvent.RedrawRequested acq =>
        let rendered := (s.update).render acq
        match rendered.2 with
        | none => (Mode.Running, rendered.1)
        | some SurfaceError.Lost =>
            (Mode.Running, rendered.1.resize rendered.1.size)
        | some SurfaceError.Outdated =>
            (Mode.Running, rendered.1.resize rendered.1.size)
        | some SurfaceError.OutOfMemory => (Mode.Exiting, rendered.1)
        | some SurfaceError.Timeout => (Mode.Running, rendered.1)
    | WinEvent.Other => (Mode.Running, s)

/-- `n` consecutive `update` calls. -/
noncomputable def State.updates (s : State) : Nat → State
  | 0 => s
  | n + 1 => (State.updates s n).update

/-- A GPU adapter handle; only its identity matters for selection. -/
structure Adapter where
  id : Nat
deriving DecidableEq

/-- `wgpu::PowerPreference`. -/
inductive PowerPreference where
  | NoPreference
  | LowPower
  | HighPerformance
deriving DecidableEq

/-- The `wgpu::RequestAdapterOptions` fields passed by `State::new`:
whether a compatible surface is supplied is recorded as a Bool. -/
structure RequestAdapterOptions where
  power_preference : PowerPreference
  compatible_surface : Bool
  force_fallback_adapter : Bool
deriving DecidableEq

/-- The options literal at `lib.rs` lines 55-59. -/
def request_adapter_options : RequestAdapterOptions :=
  { power_preference := PowerPreference.HighPerformance
    compatible_surface := true
    force_fallback_adapter := true }

/-- Adapter selection in `State::new` (lines 53-67): the result of
`request_adapter`, or else the first adapter among the enumerated ones
that supports the surface. -/
def select_adapter (request_result : Option Adapter) (enumerated : List Adapter)
    (is_surface_supported : Adapter → Bool) : Option Adapter :=
  match request_result with
  | some adapter => some adapter
  | none => enumerated.find? is_surface_supported

/-- The `.expect("Failed to find a compatible GPU adapter")` at line 68:
`none` aborts the process with that message. -/
def expect_adapter (r : Option Adapter) : Except String Adapter :=
  match r with
  | some adapter => Except.ok adapter
  | none => Except.error "Failed to find a compatible GPU adapter"

/-- Specification-side matrix (from the spec text, for comparison with the
source-side `Mat4.from_rotation_z`): the mathematical 4x4 Z-axis rotation
matrix, rows indexed first. -/
noncomputable def zRotationMatrix (t : ℝ) : Matrix (Fin 4) (Fin 4) ℝ :=
  !![Real.cos t, -Real.sin t, 0, 0;
     Real.sin t,  Real.cos t, 0, 0;
     0,           0,          1, 0;
     0,           0,          0, 1]

/-- Specification-side serialisation: the 16 entries of a 4x4 matrix in
column-major order. -/
noncomputable def colMajor16 (M : Matrix (Fin 4) (Fin 4) ℝ) : List ℝ :=
  [M 0 0, M 1 0, M 2 0, M 3 0,
   M 0 1, M 1 1, M 2 1, M 3 1,
   M 0 2, M 1 2, M 2 2, M 3 2,
   M 0 3, M 1 3, M 2 3, M 3 3]

/-- The stored-size / configuration synchronisation invariant. -/
def SizeConfigInv (s : State) : Prop :=
  s.config.width = s.size.width ∧ s.config.height = s.size.height

/-- C5: for a resize event with strictly positive width and height, the
stored size and the configuration width/height become exactly the event's
dimensions, and the surface is reconfigured with that configuration. -/
theorem c5_resize_positive (s : State) (new_size : PhysicalSize)
    (hw : 0 < new_size.width) (hh : 0 < new_size.height) :
    (s.resize new_size).size = new_size ∧
    (s.resize new_size).config.width = new_size.width ∧
    (s.resize new_size).config.height = new_size.height ∧
    (s.resize new_size).surface_configured =
      (s.resize new_size).config :: s.surface_configured := by
  simp [State.resize, hw, hh]

theorem c5_resize_positive_witness :
    0 < (3 : Nat) ∧ 0 < (4 : Nat) ∧
    ((State.new ⟨1, 1⟩ 0).resize ⟨3, 4⟩).size = ⟨3, 4⟩ := by
  refine ⟨by decide, by decide, ?_⟩
  exact (c5_resize_positive (State.new ⟨1, 1⟩ 0) ⟨3, 4⟩ (by decide) (by decide)).1

/-- C6: a resize event with zero width or zero height leaves the state
completely unchanged: in particular the stored size, the configuration and
the surface-configure log keep their prior values. -/
theorem c6_resize_zero_noop (s : State) (new_size : PhysicalSize)
    (h : new_size.width = 0 ∨ new_size.height = 0) :
    s.resize new_size = s := by
  rcases h with h | h <;> simp [State.resize, h]

theorem c6_resize_zero_noop_witness :
    (State.new ⟨1, 1⟩ 0).resize ⟨0, 5⟩ = State.new ⟨1, 1⟩ 0 :=
  c6_resize_zero_noop (State.new ⟨1, 1⟩ 0) ⟨0, 5⟩ (Or.inl rfl)

/-- C8: when surface-image acquisition fails, `render` returns that very
error to its caller (it cannot panic: it is a total function into
`State × Option SurfaceError`), tries nothing again, and records no render
pass, submits nothing and presents nothing: the state is returned
unchanged. -/
theorem c8_render_propagates_error (s : State) (e : SurfaceError) :
    (s.render (some e)).2 = some e ∧
    (s.render (some e)).1 = s ∧
    (s.render (some e)).1.render_passes = s.render_passes ∧
    (s.render (some e)).1.submits = s.submits ∧
    (s.render (some e)).1.presents = s.presents := by
  simp [State.render]

/-- C2: an out-of-memory surface error during a redraw makes the loop
transition from `Running` to `Exiting`; the post-render state is kept as
is — no recovery `resize` runs and the surface-configure log is exactly
what it was before the redraw. -/
theorem c2_out_of_memory_exits (s : State) :
    loopStep Mode.Running s
        (WinEvent.RedrawRequested (some SurfaceError.OutOfMemory)) =
      (Mode.Exiting, s.update) ∧
    (loopStep Mode.Running s
        (WinEvent.RedrawRequested (some SurfaceError.OutOfMemory))).2.surface_configured =
      s.surface_configured := by
  constructor
  · simp [loopStep, State.render]
  · simp [loopStep, State.render, State.update]

/-- C1: a lost or outdated surface error during a redraw is handled by
calling `resize` with the current stored size: the stored size is left
unchanged, the surface is reconfigured at that size whenever it is
positive, and the loop stays `Running`. -/
theorem c1_lost_outdated_recovery (s : State) (e : SurfaceError)
    (he : e = SurfaceError.Lost ∨ e = SurfaceError.Outdated) :
    (loopStep Mode.Running s (WinEvent.RedrawRequested (some e))).1 =
      Mode.Running ∧
    (loopStep Mode.Running s (WinEvent.RedrawRequested (some e))).2 =
      s.update.resize s.update.size ∧
    (loopStep Mode.Running s (WinEvent.RedrawRequested (some e))).2.size =
      s.size ∧
    (0 < s.size.width → 0 < s.size.height →
      (loopStep Mode.Running s (WinEvent.RedrawRequested (some e))).2.surface_configured =
        { s.config with width := s.size.width, height := s.size.height } ::
          s.surface_configured) := by
  have hsize : s.update.size = s.size := by simp [State.update]
  have hcfg : s.update.config = s.config := by simp [State.update]
  have hlog : s.update.surface_configured = s.surface_configured := by
    simp [State.update]
  rcases he with he | he <;> subst he <;>
    refine ⟨by simp [loopStep, State.render], by simp [loopStep, State.render], ?_, ?_⟩ <;>
    simp only [loopStep, State.render] <;>
    rw [State.resize] <;>
    rcases Nat.eq_zero_or_pos s.size.width with hw | hw <;>
    rcases Nat.eq_zero_or_pos s.size.height with hh | hh <;>
    simp_all [hsize, hcfg, hlog]

theorem c1_lost_outdated_recovery_witness :
    (SurfaceError.Lost = SurfaceError.Lost ∨
      SurfaceError.Lost = SurfaceError.Outdated) ∧
    (loopStep Mode.Running (State.new ⟨2, 2⟩ 0)
        (WinEvent.RedrawRequested (some SurfaceError.Lost))).1 = Mode.Running :=
  ⟨Or.inl rfl,
    (c1_lost_outdated_recovery (State.new ⟨2, 2⟩ 0) SurfaceError.Lost
      (Or.inl rfl)).1⟩

/-- Closed form of the rotation angle after `n` updates. -/
theorem updates_rotation_angle (s : State) (n : Nat) :
    (State.updates s n).rotation_angle = s.rotation_angle + n * 0.001 := by
  induction n with
  | zero => simp [State.updates]
  | succ k ih =>
      simp only [State.updates, State.update, ih, Nat.cast_succ]
      ring

/-- C3: each `update` call adds exactly the fixed increment `0.001` to the
rotation angle, and over any two points of a run of consecutive updates
the angle is non-decreasing. -/
theorem c3_rotation_increment_monotone (s : State) (m n : Nat) (h : m ≤ n) :
    s.update.rotation_angle = s.rotation_angle + 0.001 ∧
    (State.updates s m).rotation_angle ≤ (State.updates s n).rotation_angle := by
  constructor
  · simp [State.update]
  · rw [updates_rotation_angle, updates_rotation_angle]
    have hmn : (m : ℝ) ≤ (n : ℝ) := Nat.cast_le.mpr h
    have : (m : ℝ) * 0.001 ≤ (n : ℝ) * 0.001 :=
      mul_le_mul_of_nonneg_right hmn (by norm_num)
    linarith

theorem c3_rotation_increment_monotone_witness :
    (1 : Nat) ≤ 2 ∧
    (State.new ⟨2, 2⟩ 0).update.rotation_angle =
      (State.new ⟨2, 2⟩ 0).rotation_angle + 0.001 :=
  ⟨by decide,
    (c3_rotation_increment_monotone (State.new ⟨2, 2⟩ 0) 1 2 (by decide)).1⟩

/-- C4: provided the uniform buffer holds its 16 scalar slots, after an
`update` call its content is exactly the column-major serialisation of
the mathematical Z-axis rotation matrix at the post-increment angle,
written at offset 0, and it still holds 16 values. -/
theorem c4_uniform_buffer_is_zrotation (s : State)
    (h : s.uniform_buffer.length = 16) :
    s.update.uniform_buffer =
      colMajor16 (zRotationMatrix (s.rotation_angle + 0.001)) ∧
    s.update.uniform_buffer.length = 16 ∧
    s.update.rotation_angle = s.rotation_angle + 0.001 := by
  have hdrop : s.uniform_buffer.drop 16 = [] := by
    apply List.drop_eq_nil_of_le
    omega
  have hbuf : s.update.uniform_buffer =
      (Mat4.from_rotation_z (s.rotation_angle + 0.001)).to_cols_array := by
    simp [State.update, write_buffer, Mat4.to_cols_array, hdrop]
  refine ⟨?_, ?_, by simp [State.update]⟩
  · rw [hbuf]
    simp [Mat4.from_rotation_z, Mat4.to_cols_array, Vec4.Z, Vec4.W,
      colMajor16, zRotationMatrix, Matrix.cons_val_zero, Matrix.cons_val_one,
      Matrix.cons_val_two, Matrix.cons_val_three, Matrix.head_cons,
      Matrix.vecHead, Matrix.vecTail]
  · rw [hbuf]
    simp [Mat4.to_cols_array]

theorem c4_uniform_buffer_is_zrotation_witness :
    (State.new ⟨2, 2⟩ 0).uniform_buffer.length = 16 ∧
    (State.new ⟨2, 2⟩ 0).update.uniform_buffer =
      colMajor16 (zRotationMatrix ((State.new ⟨2, 2⟩ 0).rotation_angle + 0.001)) :=
  ⟨rfl,
    (c4_uniform_buffer_is_zrotation (State.new ⟨2, 2⟩ 0) rfl).1⟩

/-- `List.find?` returns the first element satisfying the predicate. -/
theorem find?_first_supported (pre rest : List Adapter) (a : Adapter)
    (supported : Adapter → Bool)
    (hpre : ∀ b ∈ pre, supported b = false) (ha : supported a = true) :
    (pre ++ a :: rest).find? supported = some a := by
  induction pre with
  | nil => simp [List.find?_cons, ha]
  | cons b bs ih =>
      have hb : supported b = false := hpre b (by simp)
      have hbs : ∀ c ∈ bs, supported c = false := fun c hc =>
        hpre c (by simp [hc])
      simp [List.find?_cons, hb, ih hbs]

/-- C7: adapter selection first takes the result of `request_adapter`
(whose options name a high-performance power preference and a compatible
surface); when that yields nothing it falls back to enumeration and picks
the first adapter that supports the surface; when that also yields
nothing, the `expect` aborts with an explanatory message. -/
theorem c7_adapter_selection (requested : Option Adapter)
    (enumerated : List Adapter) (supported : Adapter → Bool) :
    request_adapter_options.power_preference = PowerPreference.HighPerformance ∧
    request_adapter_options.compatible_surface = true ∧
    (∀ a, requested = some a →
      select_adapter requested enumerated supported = some a) ∧
    (requested = none →
      select_adapter requested enumerated supported =
        enumerated.find? supported) ∧
    (∀ pre a rest, requested = none → enumerated = pre ++ a :: rest →
      (∀ b ∈ pre, supported b = false) → supported a = true →
      select_adapter requested enumerated supported = some a) ∧
    (select_adapter requested enumerated supported = none →
      expect_adapter (select_adapter requested enumerated supported) =
        Except.error "Failed to find a compatible GPU adapter") := by
  refine ⟨rfl, rfl, ?_, ?_, ?_, ?_⟩
  · intro a ha
    simp [select_adapter, ha]
  · intro hnone
    simp [select_adapter, hnone]
  · intro pre a rest hnone henum hpre ha
    subst hnone
    subst henum
    simp [select_adapter, find?_first_supported pre rest a supported hpre ha]
  · intro hnone
    rw [hnone]
    rfl

theorem c7_adapter_selection_witness :
    select_adapter (some ⟨5⟩) [] (fun _ => false) = some ⟨5⟩ :=
  (c7_adapter_selection (some ⟨5⟩) [] (fun _ => false)).2.2.1 ⟨5⟩ rfl

/-- `resize` preserves the size/config synchronisation. -/
theorem sizeConfigInv_resize (s : State) (sz : PhysicalSize)
    (h : SizeConfigInv s) : SizeConfigInv (s.resize sz) := by
  by_cases hp : sz.width > 0 ∧ sz.height > 0
  · simp [State.resize, hp, SizeConfigInv]
  · simpa [State.resize, hp] using h

/-- `update` preserves the size/config synchronisation. -/
theorem sizeConfigInv_update (s : State) (h : SizeConfigInv s) :
    SizeConfigInv s.update := by
  simpa [State.update, SizeConfigInv] using h

/-- `render` preserves the size/config synchronisation. -/
theorem sizeConfigInv_render (s : State) (acq : Option SurfaceError)
    (h : SizeConfigInv s) : SizeConfigInv (s.render acq).1 := by
  cases acq <;> simpa [State.render, SizeConfigInv] using h

/-- C9: the stored size and the surface configuration width/height agree
at initialisation and after every operation: `resize`, `update`, `render`
and any step of the event loop (the error-recovery paths included). -/
theorem c9_size_config_sync (s0 : PhysicalSize) (fixed_caps : Nat) (s : State)
    (m : Mode) (ev : WinEvent) (h : SizeConfigInv s) :
    SizeConfigInv (State.new s0 fixed_caps) ∧
    (∀ sz, SizeConfigInv (s.resize sz)) ∧
    SizeConfigInv s.update ∧
    (∀ acq, SizeConfigInv (s.render acq).1) ∧
    SizeConfigInv (loopStep m s ev).2 := by
  refine ⟨⟨rfl, rfl⟩, fun sz => sizeConfigInv_resize s sz h,
    sizeConfigInv_update s h, fun acq => sizeConfigInv_render s acq h, ?_⟩
  cases m with
  | Exiting => exact h
  | Running =>
      cases ev with
      | CloseRequested => exact h
      | EscapePressed => exact h
      | Resized sz => exact sizeConfigInv_resize s sz h
      | Other => exact h
      | RedrawRequested acq =>
          have h1 : SizeConfigInv (s.update.render acq).1 :=
            sizeConfigInv_render s.update acq (sizeConfigInv_update s h)
          cases acq with
          | none => exact h1
          | some e =>
              cases e with
              | Lost => exact sizeConfigInv_resize _ _ h1
              | Outdated => exact sizeConfigInv_resize _ _ h1
              | OutOfMemory => exact h1
              | Timeout => exact h1

theorem c9_size_config_sync_witness :
    SizeConfigInv (State.new ⟨2, 2⟩ 0) ∧
    SizeConfigInv (loopStep Mode.Running (State.new ⟨2, 2⟩ 0)
      (WinEvent.RedrawRequested (some SurfaceError.Lost))).2 :=
  ⟨⟨rfl, rfl⟩,
    (c9_size_config_sync ⟨2, 2⟩ 0 (State.new ⟨2, 2⟩ 0) Mode.Running
      (WinEvent.RedrawRequested (some SurfaceError.Lost)) ⟨rfl, rfl⟩).2.2.2.2⟩

/-- A resize to a size with a zero dimension is the identity. -/
theorem resize_nonpositive (s : State) (sz : PhysicalSize)
    (h : sz.width = 0 ∨ sz.height = 0) : s.resize sz = s := by
  rcases h with h | h <;> simp [State.resize, h]

/-- C10: when the stored size has a zero dimension, the lost/outdated
recovery path's `resize(state.size)` reconfigures nothing and changes
nothing: the loop continues with exactly the post-update state and the
surface-configure log is untouched. -/
theorem c10_zero_size_recovery_is_noop (s : State)
    (h : s.size.width = 0 ∨ s.size.height = 0) :
    s.resize s.size = s ∧
    loopStep Mode.Running s (WinEvent.RedrawRequested (some SurfaceError.Lost)) =
      (Mode.Running, s.update) ∧
    loopStep Mode.Running s (WinEvent.RedrawRequested (some SurfaceError.Outdated)) =
      (Mode.Running, s.update) ∧
    (loopStep Mode.Running s
        (WinEvent.RedrawRequested (some SurfaceError.Lost))).2.surface_configured =
      s.surface_configured := by
  have hsz : s.update.size = s.size := by simp [State.update]
  have hres : s.update.resize s.update.size = s.update := by
    rw [hsz]
    exact resize_nonpositive s.update s.size h
  have hlog : s.update.surface_configured = s.surface_configured := by
    simp [State.update]
  refine ⟨resize_nonpositive s s.size h, ?_, ?_, ?_⟩ <;>
    simp [loopStep, State.render, hres, hlog]

theorem c10_zero_size_recovery_is_noop_witness :
    ((State.new ⟨0, 7⟩ 0).size.width = 0 ∨
      (State.new ⟨0, 7⟩ 0).size.height = 0) ∧
    (State.new ⟨0, 7⟩ 0).resize (State.new ⟨0, 7⟩ 0).size = State.new ⟨0, 7⟩ 0 :=
  ⟨Or.inl rfl,
    (c10_zero_size_recovery_is_noop (State.new ⟨0, 7⟩ 0) (Or.inl rfl)).1⟩
